import Mathlib

/-!
Shallow embedding of the prdstore backend's order/cart/auth logic.

Sources embedded:
* `POST /api/orders` (order creation), `POST /api/orders/:id/cancel`,
  `PATCH /api/orders/:id/status` from the orders route file;
* `POST /api/cart`, `DELETE /api/cart/:id` from `routes/cart.ts`;
* `authenticateToken` and `optionalAuth` from `middleware/auth.ts`;
* the price-updating part of `PUT /api/products/:id` from `routes/products-new.ts`.

The external relational store is modelled as explicit lists inside a `State`
record.  A supabase `.select(...).single()` call yields an error exactly when
no row matches, which is how the client library behaves on zero rows.
Handlers return the state at the moment of the response together with either
an error or the response payload, so early returns carry whatever mutations
have already happened (none, for the validation paths).
-/

/-- A product row: id, title, price, stock, image url and the AI approval
flag.  Prices and stock are JS numbers; stock is `Int` because the code's
read-then-write decrement can drive it below zero. -/
structure Product where
  id : Nat
  title : String
  price : Int
  stock : Int
  image_url : String
  approved_by_ai : Bool
deriving DecidableEq

/-- A cart line row: owned by a user, pointing at a product. -/
structure CartItem where
  id : Nat
  user_id : Nat
  product_id : Nat
  quantity : Int
deriving DecidableEq

/-- A frozen order line as built by the order-creation loop. -/
structure OrderItem where
  product_id : Nat
  product_title : String
  product_image : String
  price : Int
  quantity : Int
  total : Int
deriving DecidableEq

/-- The shipping information object of an order request.  Every field is
optional because the handler receives raw JSON; `truthy` mirrors JS
truthiness of a possibly-missing string field. -/
structure ShippingInfo where
  full_name : Option String
  address : Option String
  city : Option String
  state : Option String
  postal_code : Option String
  phone : Option String
deriving DecidableEq

/-- JS truthiness of an optional string: absent and `""` are falsy. -/
def truthy : Option String → Bool
  | none => false
  | some s => s != ""

/-- An order row.  `status` and `payment_status` are plain strings, as in
the database. -/
structure Order where
  id : Nat
  user_id : Nat
  items : List OrderItem
  shipping_info : ShippingInfo
  total_price : Int
  payment_method : String
  status : String
  payment_status : String
  tracking_number : Option String
  cancellation_reason : Option String
deriving DecidableEq

/-- The durable state: the three tables the embedded handlers touch, plus
counters supplying fresh row ids on insert. -/
structure State where
  products : List Product
  orders : List Order
  cartItems : List CartItem
  nextOrderId : Nat
  nextCartItemId : Nat
deriving DecidableEq

/-- One entry of the `items` array of an order request. -/
structure ReqItem where
  product_id : Nat
  quantity : Int
deriving DecidableEq

/-- The body of `POST /api/orders`. -/
structure OrderRequest where
  items : List ReqItem
  shipping_info : Option ShippingInfo
  payment_method : String
deriving DecidableEq

/-- The request identity attached by the auth middleware. -/
structure UserCtx where
  id : Nat
  email : String
  role : String
deriving DecidableEq

/-- The error responses the embedded handlers can produce, one constructor
per distinct error return in the source. -/
inductive ApiErr where
  | itemsRequired                                   -- 400 Items are required
  | shippingRequired                                -- 400 Shipping information is required
  | productNotFound (pid : Nat)                     -- 400 Product ... not found
  | insufficientStock (title : String) (avail : Int)  -- 400 Insufficient stock for ...
  | orderNotFound                                   -- 404 Order not found
  | forbidden                                       -- 403
  | cannotCancel                                    -- 400 Cannot cancel shipped or delivered orders
  | invalidStatus                                   -- 400 Invalid status
  | productIdRequired                               -- 400 Product ID is required
  | invalidQuantity                                 -- 400 Quantity must be greater than 0
  | cartProductNotFound                             -- 404 Product not found
  | cartInsufficientStock                           -- 400 Insufficient stock
  | notEnoughStock                                  -- 400 Not enough stock available
  | dbError                                         -- 500 database error surfaced
  | tokenRequired                                   -- 401 Access token required
  | invalidToken                                    -- 403 Invalid token
  | userFetchFailed                                 -- 500 Failed to fetch user data
deriving DecidableEq

/-- `supabase.from('products').select(...).eq('id', pid).single()`. -/
def findProduct (ps : List Product) (pid : Nat) : Option Product :=
  ps.find? (fun p => p.id == pid)

/-- `supabase.from('products').update({ stock: v }).eq('id', pid)`. -/
def setStock (ps : List Product) (pid : Nat) (v : Int) : List Product :=
  ps.map (fun p => if p.id == pid then { p with stock := v } else p)

/-- The per-item stock adjustment loop shared by order creation (with
subtraction) and cancellation (with addition): for each `(product_id,
quantity)` pair, re-fetch the product's current stock and, when the product
exists, write back `f stock quantity`; missing products are skipped. -/
def stockLoop (f : Int → Int → Int) : List (Nat × Int) → List Product → List Product
  | [], ps => ps
  | (pid, q) :: rest, ps =>
    match findProduct ps pid with
    | none => stockLoop f rest ps
    | some p => stockLoop f rest (setStock ps pid (f p.stock q))

/-- The validation/pricing loop of `POST /api/orders`: for each requested
line fetch the product, fail with not-found or insufficient-stock at the
first bad line, otherwise build the frozen order line with the product's
current price and `total = price * quantity`. -/
def buildOrderItems (ps : List Product) : List ReqItem → Except ApiErr (List OrderItem)
  | [] => .ok []
  | i :: rest =>
    match findProduct ps i.product_id with
    | none => .error (.productNotFound i.product_id)
    | some p =>
      if p.stock < i.quantity then
        .error (.insufficientStock p.title p.stock)
      else
        match buildOrderItems ps rest with
        | .error e => .error e
        | .ok os =>
          .ok ({ product_id := p.id, product_title := p.title,
                 product_image := p.image_url, price := p.price,
                 quantity := i.quantity, total := p.price * i.quantity } :: os)

/-- `POST /api/orders`: validate items and shipping info, run the
validation/pricing loop, insert the order row (status and payment status
`pending`), decrement each line's product stock via a fresh read, and clear
the caller's cart. -/
def createOrder (st : State) (userId : Nat) (body : OrderRequest) :
    State × Except ApiErr Order :=
  if body.items.isEmpty then (st, .error .itemsRequired)
  else
    match body.shipping_info with
    | none => (st, .error .shippingRequired)
    | some ship =>
      if !(truthy ship.address) || !(truthy ship.city) then
        (st, .error .shippingRequired)
      else
        match buildOrderItems st.products body.items with
        | .error e => (st, .error e)
        | .ok orderItems =>
          let order : Order :=
            { id := st.nextOrderId, user_id := userId, items := orderItems,
              shipping_info := ship,
              total_price := (orderItems.map (fun oi => oi.total)).sum,
              payment_method := body.payment_method,
              status := "pending", payment_status := "pending",
              tracking_number := none, cancellation_reason := none }
          let products1 := stockLoop (fun s q => s - q)
              (body.items.map (fun i => (i.product_id, i.quantity))) st.products
          ({ st with
              orders := st.orders ++ [order],
              products := products1,
              cartItems := st.cartItems.filter (fun c => c.user_id != userId),
              nextOrderId := st.nextOrderId + 1 },
           .ok order)

/-- `supabase.from('orders').select('*').eq('id', oid).single()`. -/
def findOrder (os : List Order) (oid : Nat) : Option Order :=
  os.find? (fun o => o.id == oid)

/-- `supabase.from('orders').update(...).eq('id', oid)`. -/
def setOrder (os : List Order) (oid : Nat) (f : Order → Order) : List Order :=
  os.map (fun o => if o.id == oid then f o else o)

/-- `POST /api/orders/:id/cancel`: 404 when the order is missing, 403 when
the caller is neither admin nor owner, 400 when the status is `shipped` or
`delivered`; otherwise set status `cancelled`, record the reason (with a
default when the given reason is absent or empty), and add each snapshot
line's quantity back onto the product's freshly-read stock. -/
def cancelOrder (st : State) (user : UserCtx) (oid : Nat) (reason : Option String) :
    State × Except ApiErr Order :=
  match findOrder st.orders oid with
  | none => (st, .error .orderNotFound)
  | some order =>
    if user.role != "admin" && order.user_id != user.id then
      (st, .error .forbidden)
    else if order.status == "shipped" || order.status == "delivered" then
      (st, .error .cannotCancel)
    else
      let newReason : String :=
        match reason with
        | some r => if r != "" then r else "User requested cancellation"
        | none => "User requested cancellation"
      let updated : Order :=
        { order with status := "cancelled", cancellation_reason := some newReason }
      ({ st with
          orders := setOrder st.orders oid
            (fun o => { o with status := "cancelled",
                               cancellation_reason := some newReason }),
          products := stockLoop (fun s q => s + q)
            (order.items.map (fun it => (it.product_id, it.quantity))) st.products },
       .ok updated)

/-- The status values accepted by `PATCH /api/orders/:id/status`. -/
def validStatuses : List String :=
  ["pending", "processing", "shipped", "delivered", "cancelled"]

/-- `PATCH /api/orders/:id/status` (behind `requireAdmin`): reject a status
outside `validStatuses`; otherwise overwrite the order's status (and the
tracking number when one is truthy).  The update's `.single()` errors when
the order row is missing. -/
def updateOrderStatus (st : State) (user : UserCtx) (oid : Nat)
    (status : String) (tracking : Option String) : State × Except ApiErr Order :=
  if user.role != "admin" then (st, .error .forbidden)
  else if !(validStatuses.contains status) then (st, .error .invalidStatus)
  else
    match findOrder st.orders oid with
    | none => (st, .error .dbError)
    | some order =>
      let upd : Order → Order := fun o =>
        { o with status := status,
                 tracking_number := if truthy tracking then tracking
                                    else o.tracking_number }
      ({ st with orders := setOrder st.orders oid upd }, .ok (upd order))

/-- The price-updating part of `PUT /api/products/:id` (behind
`requireAdmin`): update the product row's price; the `.single()` errors when
the row is missing.  Only the products table is touched. -/
def updateProductPrice (st : State) (user : UserCtx) (pid : Nat) (newPrice : Int) :
    State × Except ApiErr Product :=
  if user.role != "admin" then (st, .error .forbidden)
  else
    match findProduct st.products pid with
    | none => (st, .error .dbError)
    | some p =>
      let products1 := st.products.map
        (fun q => if q.id == pid then { q with price := newPrice } else q)
      ({ st with products := products1 }, .ok { p with price := newPrice })

/-- `POST /api/cart`: require a product id and a positive quantity; fetch
the product with the `approved_by_ai = true` filter (404 when absent);
reject when stock is below the requested quantity; then either bump an
existing line for the same (user, product) — rejecting when the summed
quantity exceeds stock — or insert a fresh line. -/
def addToCart (st : State) (userId : Nat) (product_id : Option Nat) (quantity : Int) :
    State × Except ApiErr CartItem :=
  match product_id with
  | none => (st, .error .productIdRequired)
  | some pid =>
    if quantity ≤ 0 then (st, .error .invalidQuantity)
    else
      match st.products.find? (fun p => p.id == pid && p.approved_by_ai) with
      | none => (st, .error .cartProductNotFound)
      | some product =>
        if product.stock < quantity then (st, .error .cartInsufficientStock)
        else
          match st.cartItems.find? (fun c => c.user_id == userId && c.product_id == pid) with
          | some existing =>
            if existing.quantity + quantity > product.stock then
              (st, .error .notEnoughStock)
            else
              let cart1 := st.cartItems.map
                (fun c => if c.id == existing.id then
                    { c with quantity := existing.quantity + quantity } else c)
              ({ st with cartItems := cart1 },
               .ok { existing with quantity := existing.quantity + quantity })
          | none =>
            let newItem : CartItem :=
              { id := st.nextCartItemId, user_id := userId,
                product_id := pid, quantity := quantity }
            ({ st with cartItems := st.cartItems ++ [newItem],
                       nextCartItemId := st.nextCartItemId + 1 },
             .ok newItem)

/-- `DELETE /api/cart/:id`: delete the rows matching both the line id and
the caller's user id, and respond with success unconditionally. -/
def removeFromCart (st : State) (userId : Nat) (lineId : Nat) :
    State × Except ApiErr Unit :=
  let cart1 := st.cartItems.filter
    (fun c => !(c.id == lineId && c.user_id == userId))
  ({ st with cartItems := cart1 }, .ok ())

/-- What the identity provider resolved the bearer token to. -/
structure IdUser where
  id : Nat
  email : String
deriving DecidableEq

/-- A row of the users table, carrying the (possibly null) role column. -/
structure UserRow where
  id : Nat
  role : Option String
deriving DecidableEq

/-- the role value with fallback "user": fall back to `user` when the role value is
absent or empty. -/
def roleOrDefault : Option String → String
  | some s => if s != "" then s else "user"
  | none => "user"

/-- `authenticateToken`: 401 without a token, 403 when the provider rejects
it; then fetch the caller's role row with `.single()`, returning 500 when
that lookup errors (no row), and otherwise attach the identity with
the role value with fallback "user". -/
def authenticateToken (token : Option String) (resolve : String → Option IdUser)
    (users : List UserRow) : Except ApiErr UserCtx :=
  match token with
  | none => .error .tokenRequired
  | some t =>
    match resolve t with
    | none => .error .invalidToken
    | some u =>
      match users.find? (fun r => r.id == u.id) with
      | none => .error .userFetchFailed
      | some row => .ok { id := u.id, email := u.email, role := roleOrDefault row.role }

/-- `optionalAuth`: proceed anonymously without a token or when the provider
rejects it; otherwise fetch the role row, ignoring a lookup error, and
attach the identity with the role value with fallback "user". -/
def optionalAuth (token : Option String) (resolve : String → Option IdUser)
    (users : List UserRow) : Option UserCtx :=
  match token with
  | none => none
  | some t =>
    match resolve t with
    | none => none
    | some u =>
      let userData := users.find? (fun r => r.id == u.id)
      some { id := u.id, email := u.email,
             role := roleOrDefault (match userData with
                                    | some r => r.role
                                    | none => none) }

/-! ## Helper lemmas about the embedded store operations -/

/-- Looking a product up after a stock write: the lookup result is the old
result with the stock field rewritten when the ids match. -/
theorem findProduct_setStock (ps : List Product) (pid : Nat) (v : Int) (pid' : Nat) :
    findProduct (setStock ps pid v) pid' =
      (findProduct ps pid').map
        (fun p => if p.id == pid then { p with stock := v } else p) := by
  unfold findProduct setStock
  rw [List.find?_map]
  have hpred : ((fun p : Product => p.id == pid') ∘
      (fun p => if p.id == pid then { p with stock := v } else p))
      = (fun p : Product => p.id == pid') := by
    funext x
    by_cases h : (x.id == pid) = true <;> simp [Function.comp, h]
  rw [hpred]

/-- Folding the stock-adjusting operation of a loop over the pairs that
target a given product id. -/
def qtyDelta (f : Int → Int → Int) (pid : Nat) (items : List (Nat × Int)) (s : Int) : Int :=
  items.foldl (fun acc it => if it.1 = pid then f acc it.2 else acc) s

/-- The total quantity the pairs of a loop request for a given product id. -/
def qtySum (pid : Nat) (items : List (Nat × Int)) : Int :=
  (items.map (fun it => if it.1 = pid then it.2 else 0)).sum

/-- Running the stock loop rewrites each existing product's stock by the
fold of the loop operation over the pairs addressed to it, and changes
nothing else about the product. -/
theorem stockLoop_findProduct (f : Int → Int → Int) (items : List (Nat × Int))
    (ps : List Product) (pid : Nat) (p : Product)
    (h : findProduct ps pid = some p) :
    findProduct (stockLoop f items ps) pid =
      some { p with stock := qtyDelta f pid items p.stock } := by
  induction items generalizing ps p with
  | nil =>
    simpa [stockLoop, qtyDelta] using h
  | cons it rest ih =>
    obtain ⟨q, n⟩ := it
    have hid : p.id = pid := by
      simpa [findProduct] using List.find?_some h
    by_cases hq : q = pid
    · subst hq
      rw [stockLoop, h]
      have h2 : findProduct (setStock ps q (f p.stock n)) q =
          some { p with stock := f p.stock n } := by
        rw [findProduct_setStock, h]
        simp [hid]
      rw [ih _ _ h2]
      simp [qtyDelta]
    · cases hfq : findProduct ps q with
      | none =>
        rw [stockLoop, hfq]
        rw [ih _ _ h]
        simp [qtyDelta, hq]
      | some r =>
        rw [stockLoop, hfq]
        have h3 : findProduct (setStock ps q (f r.stock n)) pid = some p := by
          rw [findProduct_setStock, h]
          simp [hid, Ne.symm hq]
        rw [ih _ _ h3]
        simp [qtyDelta, hq]

/-- Specialisation of `qtyDelta` to the additive restore of cancellation:
the fold adds up exactly the quantities addressed to the product. -/
theorem qtyDelta_add (pid : Nat) (items : List (Nat × Int)) (s : Int) :
    qtyDelta (fun a b => a + b) pid items s = s + qtySum pid items := by
  induction items generalizing s with
  | nil => simp [qtyDelta, qtySum]
  | cons it rest ih =>
    by_cases h : it.1 = pid
    · simp only [qtyDelta, List.foldl_cons, h, if_true]
      have h2 := ih (s + it.2)
      simp only [qtyDelta] at h2
      rw [h2]
      simp [qtySum, h]
      omega
    · simp only [qtyDelta, List.foldl_cons, h, if_false]
      have h2 := ih s
      simp only [qtyDelta] at h2
      rw [h2]
      simp [qtySum, h]

/-- Looking an order up after an id-preserving order update. -/
theorem findOrder_setOrder (os : List Order) (oid : Nat) (f : Order → Order)
    (hf : ∀ o, (f o).id = o.id) (oid' : Nat) :
    findOrder (setOrder os oid f) oid' =
      (findOrder os oid').map (fun o => if o.id == oid then f o else o) := by
  unfold findOrder setOrder
  rw [List.find?_map]
  have hpred : ((fun o : Order => o.id == oid') ∘
      (fun o => if o.id == oid then f o else o))
      = (fun o : Order => o.id == oid') := by
    funext x
    by_cases h : (x.id == oid) = true <;> simp [Function.comp, h, hf]
  rw [hpred]

/-- The validation/pricing loop only fails with a product-not-found or an
insufficient-stock error. -/
theorem buildOrderItems_error_shape (ps : List Product) (items : List ReqItem)
    (e : ApiErr) (h : buildOrderItems ps items = .error e) :
    (∃ pid, e = .productNotFound pid) ∨ ∃ t s, e = .insufficientStock t s := by
  induction items with
  | nil => simp [buildOrderItems] at h
  | cons i rest ih =>
    rw [buildOrderItems] at h
    split at h
    · cases h
      exact .inl ⟨_, rfl⟩
    · split at h
      · cases h
        exact .inr ⟨_, _, rfl⟩
      · split at h
        · cases h
          exact ih (by assumption)
        · cases h

/-- Each frozen line the validation/pricing loop outputs corresponds to the
requested line in the same position, priced with the product's current
price and totalled as price times quantity. -/
theorem buildOrderItems_rel (ps : List Product) (items : List ReqItem)
    (out : List OrderItem) (h : buildOrderItems ps items = .ok out) :
    List.Forall₂ (fun (i : ReqItem) (oi : OrderItem) =>
      ∃ p, findProduct ps i.product_id = some p ∧ oi.product_id = i.product_id ∧
        oi.price = p.price ∧ oi.quantity = i.quantity ∧
        oi.total = p.price * i.quantity) items out := by
  induction items generalizing out with
  | nil =>
    rw [buildOrderItems] at h
    cases h
    exact List.Forall₂.nil
  | cons i rest ih =>
    rw [buildOrderItems] at h
    cases hf : findProduct ps i.product_id with
    | none =>
      simp only [hf] at h
      cases h
    | some p =>
      simp only [hf] at h
      by_cases hs : p.stock < i.quantity
      · rw [if_pos hs] at h
        cases h
      · rw [if_neg hs] at h
        cases hb : buildOrderItems ps rest with
        | error e2 =>
          simp only [hb] at h
          cases h
        | ok os =>
          simp only [hb] at h
          cases h
          refine List.Forall₂.cons ⟨p, hf, ?_, rfl, rfl, rfl⟩ (ih _ hb)
          simpa [findProduct] using List.find?_some hf

/-- The product price update only touches the products table. -/
theorem updateProductPrice_preserves_orders (st : State) (u : UserCtx)
    (pid : Nat) (np : Int) :
    (updateProductPrice st u pid np).1.orders = st.orders := by
  unfold updateProductPrice
  split
  · rfl
  · split <;> rfl

/-- When the product table has no duplicate ids, a product found by id whose
approval flag is off is invisible to the approved-filtered lookup. -/
theorem find?_approved_eq_none (ps : List Product) (pid : Nat) (p : Product)
    (hnodup : (ps.map (fun x => x.id)).Nodup)
    (hfind : ps.find? (fun x => x.id == pid) = some p)
    (hunapp : p.approved_by_ai = false) :
    ps.find? (fun x => x.id == pid && x.approved_by_ai) = none := by
  rw [List.find?_eq_none]
  intro x hx hpx
  have hxid : x.id = pid ∧ x.approved_by_ai = true := by simpa using hpx
  have hp_mem : p ∈ ps := List.mem_of_find?_eq_some hfind
  have hp_id : p.id = pid := by simpa using List.find?_some hfind
  have hxp : x = p :=
    List.inj_on_of_nodup_map hnodup hx hp_mem (hxid.1.trans hp_id.symm)
  rw [hxp] at hxid
  rw [hunapp] at hxid
  exact Bool.false_ne_true hxid.2

/-! ## C1: order placement is all-or-nothing on failure -/

/-- C1.  Whenever `POST /api/orders` responds with an error, the error is
one of the validation failures (empty item list, missing or incomplete
shipping info, a missing product, or a line exceeding current stock), and
the state is exactly the state the handler started from: no order row, no
stock change, and an unchanged cart. -/
theorem createOrder_error_no_mutation (st : State) (u : Nat) (body : OrderRequest)
    (st' : State) (e : ApiErr)
    (h : createOrder st u body = (st', .error e)) :
    st' = st ∧
      (e = .itemsRequired ∨ e = .shippingRequired ∨
       (∃ pid, e = .productNotFound pid) ∨ ∃ t s, e = .insufficientStock t s) := by
  unfold createOrder at h
  split at h
  · cases h
    exact ⟨rfl, .inl rfl⟩
  · split at h
    · cases h
      exact ⟨rfl, .inr (.inl rfl)⟩
    · split at h
      · cases h
        exact ⟨rfl, .inr (.inl rfl)⟩
      · split at h
        · cases h
          rename_i e2 hb
          exact ⟨rfl, .inr (.inr (buildOrderItems_error_shape _ _ _ hb))⟩
        · cases h

/-- A concrete state used by several witnesses: two products (one approved,
one not), one foreign cart line, no orders. -/
def exShip : ShippingInfo :=
  { full_name := some "Ada L", address := some "1 Main St", city := some "Springfield",
    state := some "IL", postal_code := some "62701", phone := some "555-0100" }

def exProdA : Product :=
  { id := 1, title := "A", price := 10, stock := 5, image_url := "imgA",
    approved_by_ai := true }

def exProdB : Product :=
  { id := 2, title := "B", price := 7, stock := 3, image_url := "imgB",
    approved_by_ai := false }

def exState : State :=
  { products := [exProdA, exProdB], orders := [],
    cartItems := [{ id := 9, user_id := 7, product_id := 1, quantity := 1 }],
    nextOrderId := 1, nextCartItemId := 10 }

/-- An order request with an empty item list, for the C1 witness. -/
def exEmptyReq : OrderRequest :=
  { items := [], shipping_info := some exShip, payment_method := "card" }

/-- C1 witness: placing an order with an empty item list fails and leaves
the concrete state untouched. -/
theorem createOrder_error_no_mutation_witness :
    (createOrder exState 7 exEmptyReq).1 = exState :=
  (createOrder_error_no_mutation exState 7 exEmptyReq
    (createOrder exState 7 exEmptyReq).1 .itemsRequired rfl).1

/-! ## C10: targeted cart removal is idempotent and never fails -/

/-- C10.  `DELETE /api/cart/:id` always responds with success; it is
idempotent; every line it removes is the caller's line with the requested
id; it adds nothing; and when no such line exists (nonexistent, already
removed, or owned by another user) the state is completely unchanged. -/
theorem removeFromCart_spec (st : State) (u lid : Nat) :
    (removeFromCart st u lid).2 = .ok () ∧
    (removeFromCart (removeFromCart st u lid).1 u lid).1 =
      (removeFromCart st u lid).1 ∧
    (∀ c ∈ st.cartItems, ¬(c.id = lid ∧ c.user_id = u) →
      c ∈ (removeFromCart st u lid).1.cartItems) ∧
    (∀ c ∈ (removeFromCart st u lid).1.cartItems, c ∈ st.cartItems) ∧
    ((∀ c ∈ st.cartItems, ¬(c.id = lid ∧ c.user_id = u)) →
      (removeFromCart st u lid).1 = st) := by
  obtain ⟨ps, os, cs, no, nc⟩ := st
  refine ⟨rfl, ?_, ?_, ?_, ?_⟩
  · simp [removeFromCart, List.filter_filter]
  · intro c hc hne
    simp only [removeFromCart, List.mem_filter]
    refine ⟨hc, ?_⟩
    simp only [Bool.not_eq_true', Bool.and_eq_false_iff]
    by_cases h1 : c.id = lid
    · right
      have : ¬c.user_id = u := fun h2 => hne ⟨h1, h2⟩
      simp [this]
    · left
      simp [h1]
  · intro c hc
    exact (List.mem_filter.mp hc).1
  · intro hall
    simp only [removeFromCart]
    congr 1
    rw [List.filter_eq_self]
    intro c hc
    have := hall c hc
    simp only [Bool.not_eq_true', Bool.and_eq_false_iff]
    by_cases h1 : c.id = lid
    · right
      have : ¬c.user_id = u := fun h2 => this ⟨h1, h2⟩
      simp [this]
    · left
      simp [h1]

/-- C10 witness: removing a line id that belongs to another user leaves the
concrete state unchanged, and a repeat removal is a no-op. -/
theorem removeFromCart_spec_witness :
    (removeFromCart exState 3 9).1 = exState ∧
    (removeFromCart (removeFromCart exState 7 9).1 7 9).1 =
      (removeFromCart exState 7 9).1 :=
  ⟨(removeFromCart_spec exState 3 9).2.2.2.2 (by decide),
   (removeFromCart_spec exState 7 9).2.1⟩

/-! ## C8: which shipping fields order placement actually validates -/

/-- Shipping info carrying only an address and a city, every other field
absent. -/
def exShipMinimal : ShippingInfo :=
  { full_name := none, address := some "1 Main St", city := some "Springfield",
    state := none, postal_code := none, phone := none }

/-- A one-line order request using the minimal shipping info. -/
def exReqMinimal : OrderRequest :=
  { items := [{ product_id := 1, quantity := 1 }],
    shipping_info := some exShipMinimal, payment_method := "card" }

/-- The order the minimal request produces against `exState`. -/
def exOrderMinimal : Order :=
  { id := 1, user_id := 3,
    items := [{ product_id := 1, product_title := "A", product_image := "imgA",
                price := 10, quantity := 1, total := 10 }],
    shipping_info := exShipMinimal, total_price := 10, payment_method := "card",
    status := "pending", payment_status := "pending",
    tracking_number := none, cancellation_reason := none }

/-- C8 counterexample: a request whose shipping address has no full name,
no state, no postal code and no phone is accepted, not rejected. -/
theorem createOrder_accepts_incomplete_shipping :
    exShipMinimal.full_name = none ∧ exShipMinimal.state = none ∧
    exShipMinimal.postal_code = none ∧ exShipMinimal.phone = none ∧
    (createOrder exState 3 exReqMinimal).2 = .ok exOrderMinimal := by
  refine ⟨rfl, rfl, rfl, rfl, ?_⟩
  rfl

/-- C8 amended.  `POST /api/orders` rejects with the items error exactly
when the item list is empty, and with the shipping error exactly when the
shipping info is absent or its address or city field is missing or empty;
no other shipping field is validated. -/
theorem createOrder_validation (st : State) (u : Nat) (body : OrderRequest) :
    ((createOrder st u body).2 = .error .itemsRequired ↔
      body.items.isEmpty = true) ∧
    ((createOrder st u body).2 = .error .shippingRequired ↔
      body.items.isEmpty = false ∧
        (body.shipping_info = none ∨
          ∃ s, body.shipping_info = some s ∧
            (truthy s.address = false ∨ truthy s.city = false))) := by
  unfold createOrder
  by_cases hemp : body.items.isEmpty = true
  · simp [hemp]
  · have hempf : body.items.isEmpty = false := by simpa using hemp
    cases hship : body.shipping_info with
    | none => simp [hempf, hship]
    | some s =>
      by_cases haddr : (!truthy s.address || !truthy s.city) = true
      · have hnv : truthy s.address = false ∨ truthy s.city = false := by
          rcases Bool.or_eq_true_iff.mp haddr with h3 | h3
          · exact .inl (by simpa using h3)
          · exact .inr (by simpa using h3)
        simp [hempf, hship, haddr, hnv]
      · have h2 : (!truthy s.address || !truthy s.city) = false := by
          simpa using haddr
        have ha : truthy s.address = true := by
          rcases Bool.or_eq_false_iff.mp h2 with ⟨h3, _⟩
          simpa using h3
        have hc : truthy s.city = true := by
          rcases Bool.or_eq_false_iff.mp h2 with ⟨_, h4⟩
          simpa using h4
        cases hb : buildOrderItems st.products body.items with
        | error e =>
          rcases buildOrderItems_error_shape _ _ _ hb with ⟨pid, rfl⟩ | ⟨t, sa, rfl⟩ <;>
            simp [hempf, hship, h2, hb, ha, hc]
        | ok os =>
          simp [hempf, hship, h2, hb, ha, hc]

/-! ## C4: totals are priced at placement time and frozen afterwards -/

/-- C4.  A successfully placed order stores, per line, the product's price
at placement time, the requested quantity, and a line total of price times
quantity; the stored order total is the sum of those line totals; and a
later product price update leaves the stored orders untouched. -/
theorem createOrder_total_snapshot (st : State) (u : Nat) (body : OrderRequest)
    (st' : State) (order : Order)
    (h : createOrder st u body = (st', .ok order)) :
    order.total_price = (order.items.map (fun oi => oi.total)).sum ∧
    List.Forall₂ (fun (i : ReqItem) (oi : OrderItem) =>
      ∃ p, findProduct st.products i.product_id = some p ∧
        oi.product_id = i.product_id ∧ oi.price = p.price ∧
        oi.quantity = i.quantity ∧ oi.total = p.price * i.quantity)
      body.items order.items ∧
    ∀ (a : UserCtx) (pid : Nat) (np : Int),
      (updateProductPrice st' a pid np).1.orders = st'.orders := by
  unfold createOrder at h
  by_cases hemp : body.items.isEmpty = true
  · rw [if_pos hemp] at h
    simp [Prod.ext_iff] at h
  · rw [if_neg hemp] at h
    cases hship : body.shipping_info with
    | none =>
      simp only [hship] at h
      simp [Prod.ext_iff] at h
    | some s =>
      simp only [hship] at h
      by_cases htr : (!truthy s.address || !truthy s.city) = true
      · rw [if_pos htr] at h
        simp [Prod.ext_iff] at h
      · rw [if_neg htr] at h
        cases hb : buildOrderItems st.products body.items with
        | error e =>
          simp only [hb] at h
          simp [Prod.ext_iff] at h
        | ok os =>
          simp only [hb] at h
          cases h
          exact ⟨rfl, buildOrderItems_rel _ _ _ hb,
                 fun a pid np => updateProductPrice_preserves_orders _ a pid np⟩

/-- A two-unit order request against the approved example product. -/
def exReqTwo : OrderRequest :=
  { items := [{ product_id := 1, quantity := 2 }],
    shipping_info := some exShip, payment_method := "card" }

/-- The order `exReqTwo` produces against `exState`. -/
def exOrderTwo : Order :=
  { id := 1, user_id := 7,
    items := [{ product_id := 1, product_title := "A", product_image := "imgA",
                price := 10, quantity := 2, total := 20 }],
    shipping_info := exShip, total_price := 20, payment_method := "card",
    status := "pending", payment_status := "pending",
    tracking_number := none, cancellation_reason := none }

/-- C4 witness: on the concrete two-unit request the stored total equals
the sum of the stored line totals. -/
theorem createOrder_total_snapshot_witness :
    exOrderTwo.total_price = (exOrderTwo.items.map (fun oi => oi.total)).sum :=
  (createOrder_total_snapshot exState 7 exReqTwo
    (createOrder exState 7 exReqTwo).1 exOrderTwo rfl).1

/-! ## C3: successful cancellation restores stock additively -/

/-- C3.  Cancelling a pending or processing order as its owner or an admin
succeeds: the stored order's status becomes cancelled with the given
(nonempty) reason recorded, and every product present in the store gains
exactly the total quantity its lines in the order's snapshot carry —
an additive restore on the current stock value. -/
theorem cancelOrder_success_restores (st : State) (u : UserCtx) (oid : Nat)
    (r : String) (o : Order)
    (ho : findOrder st.orders oid = some o)
    (hstat : o.status = "pending" ∨ o.status = "processing")
    (hperm : u.role = "admin" ∨ o.user_id = u.id)
    (hr : r ≠ "") :
    (cancelOrder st u oid (some r)).2 =
      .ok { o with status := "cancelled", cancellation_reason := some r } ∧
    findOrder (cancelOrder st u oid (some r)).1.orders oid =
      some { o with status := "cancelled", cancellation_reason := some r } ∧
    ∀ pid p, findProduct st.products pid = some p →
      findProduct (cancelOrder st u oid (some r)).1.products pid =
        some { p with stock := p.stock + qtySum pid (o.items.map (fun it => (it.product_id, it.quantity))) } := by
  have hoid : o.id = oid := by
    simpa [findOrder] using List.find?_some ho
  have hguard : (u.role != "admin" && o.user_id != u.id) = false := by
    rcases hperm with h | h <;> simp [h]
  have hterm : (o.status == "shipped" || o.status == "delivered") = false := by
    rcases hstat with h | h <;> rw [h] <;> rfl
  have hrne : (r != "") = true := by simpa using hr
  have hrun : cancelOrder st u oid (some r) =
      ({ st with
          orders := setOrder st.orders oid
            (fun o2 => { o2 with status := "cancelled",
                                 cancellation_reason := some r }),
          products := stockLoop (fun s q => s + q)
            (o.items.map (fun it => (it.product_id, it.quantity))) st.products },
       .ok { o with status := "cancelled", cancellation_reason := some r }) := by
    unfold cancelOrder
    simp [ho, hguard, hterm, hrne]
  refine ⟨by rw [hrun], ?_, ?_⟩
  · rw [hrun]
    rw [findOrder_setOrder st.orders oid (fun o2 => { o2 with status := "cancelled", cancellation_reason := some r }) (fun o2 => rfl) oid, ho]
    simp [hoid]
  · intro pid p hp
    rw [hrun]
    show findProduct (stockLoop _ _ _) pid = _
    rw [stockLoop_findProduct _ _ _ _ _ hp, qtyDelta_add]

/-- A cancellable (processing) order over the approved example product. -/
def exOrderProcessing : Order :=
  { id := 1, user_id := 7,
    items := [{ product_id := 1, product_title := "A", product_image := "imgA",
                price := 10, quantity := 2, total := 20 }],
    shipping_info := exShip, total_price := 20, payment_method := "card",
    status := "processing", payment_status := "pending",
    tracking_number := none, cancellation_reason := none }

/-- The example state holding the processing order. -/
def exStateProcessing : State :=
  { products := [exProdA, exProdB], orders := [exOrderProcessing],
    cartItems := [], nextOrderId := 2, nextCartItemId := 1 }

/-- The example order's owner. -/
def exOwner : UserCtx := { id := 7, email := "owner@example.com", role := "user" }

/-- C3 witness: cancelling the concrete processing order puts product 1
from stock 5 to stock 7 (its snapshot quantity is 2) and stores the reason. -/
theorem cancelOrder_success_restores_witness :
    (cancelOrder exStateProcessing exOwner 1 (some "changed my mind")).2 =
      .ok { exOrderProcessing with status := "cancelled", cancellation_reason := some "changed my mind" } ∧
    findProduct (cancelOrder exStateProcessing exOwner 1
        (some "changed my mind")).1.products 1 =
      some { exProdA with stock := 5 + qtySum 1 (exOrderProcessing.items.map (fun it => (it.product_id, it.quantity))) } :=
  ⟨(cancelOrder_success_restores exStateProcessing exOwner 1 "changed my mind"
      exOrderProcessing rfl (.inr rfl) (.inr rfl) (by decide)).1,
   (cancelOrder_success_restores exStateProcessing exOwner 1 "changed my mind"
      exOrderProcessing rfl (.inr rfl) (.inr rfl) (by decide)).2.2 1 exProdA rfl⟩

/-! ## C2: re-cancelling an already cancelled order -/

/-- An already-cancelled order whose snapshot holds two units of product 1. -/
def exOrderCancelled : Order :=
  { id := 1, user_id := 7,
    items := [{ product_id := 1, product_title := "A", product_image := "imgA",
                price := 10, quantity := 2, total := 20 }],
    shipping_info := exShip, total_price := 20, payment_method := "card",
    status := "cancelled", payment_status := "pending",
    tracking_number := none, cancellation_reason := some "earlier" }

/-- A state where product 1 has stock 3 (its two units were already
restored once by the first cancellation). -/
def exStateCancelled : State :=
  { products := [{ id := 1, title := "A", price := 10, stock := 3,
                   image_url := "imgA", approved_by_ai := true }],
    orders := [exOrderCancelled], cartItems := [],
    nextOrderId := 2, nextCartItemId := 1 }

/-- C2: evaluating the cancellation handler on an order whose status is
already cancelled — the handler's guard only rejects shipped and delivered,
so the call succeeds again and restores the snapshot quantities a second
time (stock 3 becomes 5), instead of failing with an invalid-transition
error as the handler's own comment and the specification require. -/
theorem cancelOrder_recancel_restores_again :
    exOrderCancelled.status = "cancelled" ∧
    (cancelOrder exStateCancelled exOwner 1 (some "again")).2 =
      .ok { exOrderCancelled with cancellation_reason := some "again" } ∧
    (findProduct (cancelOrder exStateCancelled exOwner 1 (some "again")).1.products 1).map
      (fun p => p.stock) = some 5 := by
  refine ⟨rfl, rfl, rfl⟩

/-! ## C5: the admin status update performs no transition check -/

/-- A delivered order, terminal for the claimed state machine. -/
def exOrderDelivered : Order :=
  { id := 1, user_id := 7, items := [], shipping_info := exShip,
    total_price := 0, payment_method := "card", status := "delivered",
    payment_status := "paid", tracking_number := none,
    cancellation_reason := none }

/-- A state holding only the delivered order. -/
def exStateDelivered : State :=
  { products := [], orders := [exOrderDelivered], cartItems := [],
    nextOrderId := 2, nextCartItemId := 1 }

/-- The admin identity used by the status-update examples. -/
def exAdmin : UserCtx := { id := 1, email := "admin@example.com", role := "admin" }

/-- C5 counterexample: an admin status update moves a delivered (terminal)
order straight back to pending, so transitions are not forward-only. -/
theorem updateOrderStatus_moves_backwards :
    (findOrder exStateDelivered.orders 1).map (fun o => o.status) =
      some "delivered" ∧
    (updateOrderStatus exStateDelivered exAdmin 1 "pending" none).2 =
      .ok { exOrderDelivered with status := "pending" } ∧
    (findOrder (updateOrderStatus exStateDelivered exAdmin 1 "pending" none).1.orders 1).map
      (fun o => o.status) = some "pending" := by
  refine ⟨rfl, rfl, rfl⟩

/-- C5 amended.  The admin status update validates only membership of the
new status in the five-value enum: a status outside it is rejected, and any
enum status — with no transition check whatsoever — is written onto any
existing order, including backwards or out of a terminal state. -/
theorem updateOrderStatus_spec (st : State) (u : UserCtx) (oid : Nat)
    (s : String) (tr : Option String) (o : Order)
    (hadmin : u.role = "admin") (ho : findOrder st.orders oid = some o) :
    (validStatuses.contains s = false →
      updateOrderStatus st u oid s tr = (st, .error .invalidStatus)) ∧
    (validStatuses.contains s = true →
      (updateOrderStatus st u oid s tr).2 =
        .ok { o with status := s, tracking_number := if truthy tr then tr else o.tracking_number } ∧
      findOrder (updateOrderStatus st u oid s tr).1.orders oid =
        some { o with status := s, tracking_number := if truthy tr then tr else o.tracking_number }) := by
  have hrole : (u.role != "admin") = false := by simp [hadmin]
  have hoid : o.id = oid := by
    simpa [findOrder] using List.find?_some ho
  constructor
  · intro hc
    unfold updateOrderStatus
    have h1 : ¬((u.role != "admin") = true) := by simp [hadmin]
    have h2 : (!(validStatuses.contains s)) = true := by rw [hc]; rfl
    rw [if_neg h1, if_pos h2]
  · intro hc
    have hrun : updateOrderStatus st u oid s tr = ({ st with orders := setOrder st.orders oid (fun o2 => { o2 with status := s, tracking_number := if truthy tr then tr else o2.tracking_number }) }, .ok { o with status := s, tracking_number := if truthy tr then tr else o.tracking_number }) := by
      have hmem : s ∈ validStatuses := by simpa using hc
      unfold updateOrderStatus
      simp [hrole, hc, ho, hmem]
    refine ⟨by rw [hrun], ?_⟩
    rw [hrun]
    rw [findOrder_setOrder st.orders oid (fun o2 => { o2 with status := s, tracking_number := if truthy tr then tr else o2.tracking_number }) (fun o2 => rfl) oid, ho]
    simp [hoid]

/-- C5 witness: the concrete delivered order accepts the enum value
shipped. -/
theorem updateOrderStatus_spec_witness :
    validStatuses.contains "shipped" = true ∧
    (updateOrderStatus exStateDelivered exAdmin 1 "shipped" none).2 =
      .ok { exOrderDelivered with status := "shipped", tracking_number := if truthy none then none else exOrderDelivered.tracking_number } :=
  ⟨rfl,
   ((updateOrderStatus_spec exStateDelivered exAdmin 1 "shipped" none
      exOrderDelivered rfl rfl).2 rfl).1⟩

/-! ## C6: cart add behaviour -/

/-- C6.  For a positive requested quantity, `POST /api/cart`: responds
not-found when no approved product carries the id; responds with one of the
two insufficient-stock errors when the requested quantity (plus the
existing line quantity, when a line exists) exceeds current stock, leaving
the state unchanged; and otherwise increments the existing line or inserts
a fresh one and returns the line's new state. -/
theorem addToCart_spec (st : State) (u pid : Nat) (q : Int) (hq : 1 ≤ q) :
    (st.products.find? (fun x => x.id == pid && x.approved_by_ai) = none →
      addToCart st u (some pid) q = (st, .error .cartProductNotFound)) ∧
    (∀ p, st.products.find? (fun x => x.id == pid && x.approved_by_ai) = some p →
      p.stock < q →
      addToCart st u (some pid) q = (st, .error .cartInsufficientStock)) ∧
    (∀ p ex, st.products.find? (fun x => x.id == pid && x.approved_by_ai) = some p →
      st.cartItems.find? (fun c => c.user_id == u && c.product_id == pid) = some ex →
      0 ≤ ex.quantity → p.stock < ex.quantity + q →
      (addToCart st u (some pid) q = (st, .error .cartInsufficientStock) ∨
       addToCart st u (some pid) q = (st, .error .notEnoughStock))) ∧
    (∀ p ex, st.products.find? (fun x => x.id == pid && x.approved_by_ai) = some p →
      st.cartItems.find? (fun c => c.user_id == u && c.product_id == pid) = some ex →
      0 ≤ ex.quantity → ex.quantity + q ≤ p.stock →
      (addToCart st u (some pid) q).2 = .ok { ex with quantity := ex.quantity + q } ∧
      (addToCart st u (some pid) q).1.cartItems =
        st.cartItems.map (fun c => if c.id == ex.id then { c with quantity := ex.quantity + q } else c)) ∧
    (∀ p, st.products.find? (fun x => x.id == pid && x.approved_by_ai) = some p →
      st.cartItems.find? (fun c => c.user_id == u && c.product_id == pid) = none →
      q ≤ p.stock →
      (addToCart st u (some pid) q).2 =
        .ok { id := st.nextCartItemId, user_id := u, product_id := pid, quantity := q } ∧
      (addToCart st u (some pid) q).1.cartItems =
        st.cartItems ++ [{ id := st.nextCartItemId, user_id := u, product_id := pid, quantity := q }]) := by
  have hq0 : ¬(q ≤ 0) := by omega
  refine ⟨?_, ?_, ?_, ?_, ?_⟩
  · intro hf
    simp only [addToCart]
    rw [if_neg hq0]
    simp only [hf]
  · intro p hf hs
    simp only [addToCart]
    rw [if_neg hq0]
    simp only [hf]
    rw [if_pos hs]
  · intro p ex hf hex h0 hover
    by_cases hs : p.stock < q
    · left
      simp only [addToCart]
      rw [if_neg hq0]
      simp only [hf]
      rw [if_pos hs]
    · right
      have hgt : ex.quantity + q > p.stock := by omega
      simp only [addToCart]
      rw [if_neg hq0]
      simp only [hf]
      rw [if_neg hs]
      simp only [hex]
      rw [if_pos hgt]
  · intro p ex hf hex h0 hle
    have hs : ¬(p.stock < q) := by omega
    have hng : ¬(ex.quantity + q > p.stock) := by omega
    constructor
    · simp only [addToCart]
      rw [if_neg hq0]
      simp only [hf]
      rw [if_neg hs]
      simp only [hex]
      rw [if_neg hng]
    · simp only [addToCart]
      rw [if_neg hq0]
      simp only [hf]
      rw [if_neg hs]
      simp only [hex]
      rw [if_neg hng]
  · intro p hf hex hle
    have hs : ¬(p.stock < q) := by omega
    constructor
    · simp only [addToCart]
      rw [if_neg hq0]
      simp only [hf]
      rw [if_neg hs]
      simp only [hex]
    · simp only [addToCart]
      rw [if_neg hq0]
      simp only [hf]
      rw [if_neg hs]
      simp only [hex]

/-- C6 witness: a fresh user adding two approved units gets a new line with
the next cart id. -/
theorem addToCart_spec_witness :
    (addToCart exState 8 (some 1) 2).2 =
      .ok { id := 10, user_id := 8, product_id := 1, quantity := 2 } :=
  ((addToCart_spec exState 8 1 2 (by decide)).2.2.2.2 exProdA rfl rfl (by decide)).1

/-! ## C7: role lookup behaviour of the two auth modes -/

/-- An identity provider that accepts every token as user 5. -/
def exResolve : String → Option IdUser :=
  fun _ => some { id := 5, email := "u@example.com" }

/-- C7 counterexample: in mandatory mode, a provider-validated token whose
user has no row in the user table makes the middleware respond with the 500
fetch-failure error — it does not default the role to user. -/
theorem authenticateToken_missing_row_fails :
    authenticateToken (some "tok") exResolve [] = .error .userFetchFailed := rfl

/-- C7 amended.  After provider validation the two modes differ on a
missing role row: optional auth ignores the lookup failure and defaults the
role to user, while mandatory auth fails the request with the 500
fetch-failure error; when the row exists both modes attach its role,
defaulting to user when the stored role is absent or empty. -/
theorem auth_role_resolution_spec (token : Option String)
    (resolve : String → Option IdUser) (users : List UserRow)
    (t : String) (u : IdUser) (ht : token = some t) (hu : resolve t = some u) :
    (users.find? (fun r => r.id == u.id) = none →
      authenticateToken token resolve users = .error .userFetchFailed ∧
      optionalAuth token resolve users =
        some { id := u.id, email := u.email, role := "user" }) ∧
    (∀ row, users.find? (fun r => r.id == u.id) = some row →
      authenticateToken token resolve users =
        .ok { id := u.id, email := u.email, role := roleOrDefault row.role } ∧
      optionalAuth token resolve users =
        some { id := u.id, email := u.email, role := roleOrDefault row.role }) := by
  subst ht
  constructor
  · intro hf
    constructor
    · simp only [authenticateToken, hu, hf]
    · simp only [optionalAuth, hu, hf]
      rfl
  · intro row hf
    constructor
    · simp only [authenticateToken, hu, hf]
    · simp only [optionalAuth, hu, hf]

/-- C7 witness: the amended behaviour at a concrete token, provider and an
empty user table. -/
theorem auth_role_resolution_spec_witness :
    authenticateToken (some "tok") exResolve [] = .error .userFetchFailed ∧
    optionalAuth (some "tok") exResolve [] =
      some { id := 5, email := "u@example.com", role := "user" } :=
  (auth_role_resolution_spec (some "tok") exResolve []
    "tok" { id := 5, email := "u@example.com" } rfl rfl).1 rfl

/-! ## C9: order placement skips the approval flag that cart add enforces -/

/-- C9.  In a duplicate-free product table, a product that exists with
enough stock but has its approval flag off can be ordered directly — order
placement fetches without the approval filter and succeeds — while the very
same request through cart add fails with not-found, because cart add
filters on the approval flag. -/
theorem unapproved_product_orderable (st : State) (u pid : Nat) (q : Int)
    (p : Product) (ship : ShippingInfo) (pm : String)
    (hnodup : (st.products.map (fun x => x.id)).Nodup)
    (hfind : findProduct st.products pid = some p)
    (hunapp : p.approved_by_ai = false)
    (hq1 : 1 ≤ q) (hq : q ≤ p.stock)
    (haddr : truthy ship.address = true) (hcity : truthy ship.city = true) :
    ((createOrder st u { items := [{ product_id := pid, quantity := q }], shipping_info := some ship, payment_method := pm }).2).isOk = true ∧
    (addToCart st u (some pid) q).2 = .error .cartProductNotFound := by
  constructor
  · have hs : ¬(p.stock < q) := by omega
    have hbuild : buildOrderItems st.products [{ product_id := pid, quantity := q }] =
        .ok [{ product_id := p.id, product_title := p.title, product_image := p.image_url, price := p.price, quantity := q, total := p.price * q }] := by
      simp only [buildOrderItems, hfind]
      rw [if_neg hs]
    have htr : (!(truthy ship.address) || !(truthy ship.city)) = false := by
      rw [haddr, hcity]
      rfl
    unfold createOrder
    simp only [List.isEmpty_cons, Bool.false_eq_true, if_false, htr, hbuild]
    rfl
  · have happ := find?_approved_eq_none st.products pid p hnodup hfind hunapp
    have hq0 : ¬(q ≤ 0) := by omega
    simp only [addToCart]
    rw [if_neg hq0]
    simp only [happ]

/-- C9 witness: the concrete unapproved product B (stock 3) is orderable
but not addable to the cart. -/
theorem unapproved_product_orderable_witness :
    ((createOrder exState 7 { items := [{ product_id := 2, quantity := 1 }], shipping_info := some exShip, payment_method := "card" }).2).isOk = true ∧
    (addToCart exState 7 (some 2) 1).2 = .error .cartProductNotFound :=
  unapproved_product_orderable exState 7 2 1 exProdB exShip "card"
    (by decide) rfl rfl (by decide) (by decide) rfl rfl
